import Mathlib

/-!
Verification of the connection-lifecycle core of the `connectors` repository.

The four connector facades (`RedisConnector`, `SQLConnector`, `MongoDBConnector`,
`RedpandaConnector`) are shallowly embedded as explicit state machines.  A
JavaScript promise memoized in a field (`init_promise`, `admin_promise`, ...)
is modelled as an `Option Nat` holding the identifier of the attempt it tracks;
attempt identifiers are drawn from a ghost counter (`attempts`) that counts how
many underlying driver connection attempts were ever started.  A ghost counter
`io_count` counts every driver call that reaches the backend, so that "performs
no I/O" is the statement that `io_count` is unchanged.

The synchronous prefix of an `async` method (everything up to its first
`await`) runs atomically in the single-threaded cooperative scheduler, so it
is modelled as one state transition (`connectCall`, `getAdminCall`, ...); the
settling of the awaited driver promise is a separate transition
(`settleConnect`, `settleAdmin`, ...) parameterised by the driver outcome.
Driver results are opaque `Nat` payloads; a driver call outcome is an
`Except JSError Nat`.
-/

/-- Errors thrown by the connectors or by the underlying drivers.
`notConnected c` is the `"<c> not connected — call connect() first"` error
thrown by the `require_client` / `require_db` accessors;
`consumerGroupConflict g g'` is the `"Consumer already exists with groupId
<g> — cannot create with <g'>. Call unsubscribe() first."` error;
`consumerAlreadyRunning` is the `"Consumer is already running — call
unsubscribe() before re-subscribing"` error; `driver n` stands for an opaque
error raised by the underlying driver. -/
inductive JSError where
  | notConnected (connector : String)
  | consumerGroupConflict (existing requested : String)
  | consumerAlreadyRunning
  | driver (code : Nat)
  deriving DecidableEq, Repr

/-- The result contract `{ ok: true, data } | { ok: false, error }` returned
by every Result-returning operation. -/
inductive Res (α : Type) where
  | ok (data : α)
  | err (error : JSError)
  deriving DecidableEq, Repr

/-! ## Redis connector (`lib/core/redis.connector.ts`)

Fields of the class: `client` (the driver handle, `null` until a connect
attempt succeeds), `config`, and `init_promise` (the memoized connect
attempt).  `attempts` and `io_count` are ghost observation counters. -/

structure RedisConnector where
  config : String := ""
  client : Option Nat := none
  init_promise : Option Nat := none
  attempts : Nat := 0
  io_count : Nat := 0
  deriving DecidableEq, Repr

/-- The constructor only stores the configuration; no client is created and
no I/O happens. -/
def RedisConnector.new (cfg : String) : RedisConnector :=
  { config := cfg }

/-- Synchronous body of `connect()`: if no attempt is memoized, start
`__connect()` — which builds a client via `initRedis` and issues the `PING`
liveness probe (one driver connection attempt) — and memoize it; otherwise
return the memoized attempt unchanged.  Returns the attempt the caller
awaits. -/
def RedisConnector.connectCall (s : RedisConnector) : Nat × RedisConnector :=
  match s.init_promise with
  | some a => (a, s)
  | none =>
      let a := s.attempts + 1
      (a, { s with init_promise := some a, attempts := a,
                   io_count := s.io_count + 1 })

/-- Settling of the pending `__connect()` attempt.  On success the freshly
built client is stored in `this.client`; on failure the memoized attempt is
cleared (`this.init_promise = null; // allow retry on failure`) and the error
propagates to every awaiting caller. -/
def RedisConnector.settleConnect (s : RedisConnector) (ok : Bool) : RedisConnector :=
  if ok then { s with client := s.init_promise }
  else { s with init_promise := none }

/-- `require_client()`: returns the client or throws the unrecoverable
"Redis not connected" error. -/
def RedisConnector.require_client (s : RedisConnector) : Except JSError Nat :=
  match s.client with
  | none => .error (.notConnected "Redis")
  | some c => .ok c

/-- `ping()`: `try { require_client().send('PING') } catch` → result contract.
`driver` is the outcome of the `PING` round-trip when it is issued. -/
def RedisConnector.ping (s : RedisConnector) (driver : Except JSError Nat) :
    Res Nat × RedisConnector :=
  match s.require_client with
  | .error e => (.err e, s)
  | .ok _ =>
      match driver with
      | .ok d => (.ok d, { s with io_count := s.io_count + 1 })
      | .error e => (.err e, { s with io_count := s.io_count + 1 })

/-- `health()` is an alias for `ping()`. -/
def RedisConnector.health (s : RedisConnector) (driver : Except JSError Nat) :
    Res Nat × RedisConnector :=
  s.ping driver

/-- `getInstance()` returns `require_client()` (throws when unconnected). -/
def RedisConnector.getInstance (s : RedisConnector) : Except JSError Nat :=
  s.require_client

/-- `close()`: if a client exists, close it (one driver call) and null the
field.  Note `init_promise` is NOT reset. -/
def RedisConnector.close (s : RedisConnector) : RedisConnector :=
  match s.client with
  | none => s
  | some _ => { s with client := none, io_count := s.io_count + 1 }

/-! ## SQL connector (`lib/core/sql.connector.ts`)

Same lifecycle shape as the Redis connector: `client`, `config`,
`init_promise`; `connect()` memoizes `__connect()` which builds the ORM
client via `initORM` and probes with `SELECT 1`; `close()` closes the Bun SQL
client synchronously and nulls `client` without resetting `init_promise`. -/

structure SQLConnector where
  config : String := ""
  client : Option Nat := none
  init_promise : Option Nat := none
  attempts : Nat := 0
  io_count : Nat := 0
  deriving DecidableEq, Repr

/-- The constructor only stores the configuration (the ORM client is created
inside `__connect`, not here). -/
def SQLConnector.new (cfg : String) : SQLConnector :=
  { config := cfg }

/-- Synchronous body of `connect()`: memoize one `__connect()` attempt
(`initORM` + `SELECT 1` probe). -/
def SQLConnector.connectCall (s : SQLConnector) : Nat × SQLConnector :=
  match s.init_promise with
  | some a => (a, s)
  | none =>
      let a := s.attempts + 1
      (a, { s with init_promise := some a, attempts := a,
                   io_count := s.io_count + 1 })

/-- Settling of the pending `__connect()` attempt: store the client on
success, clear `init_promise` on failure (`// allow retry on failure`). -/
def SQLConnector.settleConnect (s : SQLConnector) (ok : Bool) : SQLConnector :=
  if ok then { s with client := s.init_promise }
  else { s with init_promise := none }

/-- `require_client()`: client or the "SQL not connected" throw. -/
def SQLConnector.require_client (s : SQLConnector) : Except JSError Nat :=
  match s.client with
  | none => .error (.notConnected "SQL")
  | some c => .ok c

/-- `ping()`: `try { require_client().$client SELECT 1 } catch` → result
contract (`{ok:true}` carries no payload for SQL). -/
def SQLConnector.ping (s : SQLConnector) (driver : Except JSError Nat) :
    Res Unit × SQLConnector :=
  match s.require_client with
  | .error e => (.err e, s)
  | .ok _ =>
      match driver with
      | .ok _ => (.ok (), { s with io_count := s.io_count + 1 })
      | .error e => (.err e, { s with io_count := s.io_count + 1 })

/-- `health()` is an alias for `ping()`. -/
def SQLConnector.health (s : SQLConnector) (driver : Except JSError Nat) :
    Res Unit × SQLConnector :=
  s.ping driver

/-- `getInstance()` returns `require_client()` (throws when unconnected). -/
def SQLConnector.getInstance (s : SQLConnector) : Except JSError Nat :=
  s.require_client

/-- `close()`: close the Bun SQL client and null `client`; `init_promise` is
NOT reset. -/
def SQLConnector.close (s : SQLConnector) : SQLConnector :=
  match s.client with
  | none => s
  | some _ => { s with client := none, io_count := s.io_count + 1 }

/-! ## MongoDB connector (`lib/core/mongodb.connector.ts`)

Fields: `db`, `client`, `config`, `init_promise`.  `__connect()` awaits
`initMongoDB(config)` (driver connect + admin ping warm-up) and stores both
`client` and `db`; on failure it clears `init_promise`.  `close()` awaits
`closeMongoDB(client)` and resets `client`, `db` AND `init_promise`. -/

structure MongoDBConnector where
  config : String := ""
  db : Option Nat := none
  client : Option Nat := none
  init_promise : Option Nat := none
  attempts : Nat := 0
  io_count : Nat := 0
  deriving DecidableEq, Repr

/-- The constructor only stores the configuration. -/
def MongoDBConnector.new (cfg : String) : MongoDBConnector :=
  { config := cfg }

/-- Synchronous body of `connect()`: memoize one `__connect()` attempt
(`initMongoDB` performs the driver connect and its admin-ping probe). -/
def MongoDBConnector.connectCall (s : MongoDBConnector) : Nat × MongoDBConnector :=
  match s.init_promise with
  | some a => (a, s)
  | none =>
      let a := s.attempts + 1
      (a, { s with init_promise := some a, attempts := a,
                   io_count := s.io_count + 1 })

/-- Settling of the pending `__connect()` attempt: store `client` and `db`
on success, clear `init_promise` on failure (`// allow retry on failure`). -/
def MongoDBConnector.settleConnect (s : MongoDBConnector) (ok : Bool) : MongoDBConnector :=
  if ok then { s with client := s.init_promise, db := s.init_promise }
  else { s with init_promise := none }

/-- `require_db()`: the `Db` handle or the "MongoDB not connected" throw. -/
def MongoDBConnector.require_db (s : MongoDBConnector) : Except JSError Nat :=
  match s.db with
  | none => .error (.notConnected "MongoDB")
  | some d => .ok d

/-- `require_client()`: the `MongoClient` or the "MongoDB not connected"
throw. -/
def MongoDBConnector.require_client (s : MongoDBConnector) : Except JSError Nat :=
  match s.client with
  | none => .error (.notConnected "MongoDB")
  | some c => .ok c

/-- `ping()`: `try { require_db().admin().ping() } catch` → result
contract. -/
def MongoDBConnector.ping (s : MongoDBConnector) (driver : Except JSError Nat) :
    Res Nat × MongoDBConnector :=
  match s.require_db with
  | .error e => (.err e, s)
  | .ok _ =>
      match driver with
      | .ok d => (.ok d, { s with io_count := s.io_count + 1 })
      | .error e => (.err e, { s with io_count := s.io_count + 1 })

/-- `health()` is an alias for `ping()`. -/
def MongoDBConnector.health (s : MongoDBConnector) (driver : Except JSError Nat) :
    Res Nat × MongoDBConnector :=
  s.ping driver

/-- `getInstance()` returns `require_db()` (throws when unconnected). -/
def MongoDBConnector.getInstance (s : MongoDBConnector) : Except JSError Nat :=
  s.require_db

/-- `findOne(collection, filter)`: `try { getCollection(...).findOne(...) }
catch` → result contract.  `getCollection` goes through `require_db`, whose
throw is caught by the same `catch` and surfaced as the failure variant;
the driver is only reached when a `db` handle exists. -/
def MongoDBConnector.findOne (s : MongoDBConnector) (driver : Except JSError Nat) :
    Res Nat × MongoDBConnector :=
  match s.require_db with
  | .error e => (.err e, s)
  | .ok _ =>
      match driver with
      | .ok d => (.ok d, { s with io_count := s.io_count + 1 })
      | .error e => (.err e, { s with io_count := s.io_count + 1 })

/-- `close()`: if a client exists, await `closeMongoDB(client)` (one driver
call) and reset `client`, `db` and `init_promise`. -/
def MongoDBConnector.close (s : MongoDBConnector) : MongoDBConnector :=
  match s.client with
  | none => s
  | some _ => { s with client := none, db := none, init_promise := none,
                       io_count := s.io_count + 1 }

/-! ## Redpanda tool (`lib/tools/redpanda.tool.ts`) -/

/-- URL-style configuration (`RedpandaConnectorURLConfig`). -/
structure RedpandaURLConfig where
  url : String
  clientId : Option String := none
  connectionTimeout : Option Nat := none
  requestTimeout : Option Nat := none
  deriving DecidableEq, Repr

/-- Brokers-array configuration (`RedpandaConnectorConfig`, the fields
`initRedpanda` reads). -/
structure RedpandaBrokersConfig where
  brokers : List String
  clientId : Option String := none
  connectionTimeout : Option Nat := none
  requestTimeout : Option Nat := none
  deriving DecidableEq, Repr

/-- The union `RedpandaConnectorConfig | RedpandaConnectorURLConfig`. -/
inductive RedpandaConfig where
  | fromUrl (c : RedpandaURLConfig)
  | fromBrokers (c : RedpandaBrokersConfig)
  deriving DecidableEq, Repr

/-- The `Kafka` client object built by `initRedpanda` (construction of this
object itself opens no connection). -/
structure KafkaClient where
  clientId : String := "redpanda-connector"
  brokers : List String := []
  connectionTimeout : Nat := 10000
  requestTimeout : Nat := 30000
  deriving DecidableEq, Repr

/-- JavaScript `string.split(',')` over the character list (note that the
JS split of the empty string yields `[""]`). -/
def jsSplitCommas (cur : List Char) : List Char → List String
  | [] => [String.mk cur.reverse]
  | c :: cs =>
      if c = ',' then String.mk cur.reverse :: jsSplitCommas [] cs
      else jsSplitCommas (c :: cur) cs

/-- JavaScript `string.trim()`: strip leading and trailing whitespace. -/
def jsTrim (s : String) : String :=
  String.mk (((s.data.dropWhile Char.isWhitespace).reverse.dropWhile
    Char.isWhitespace).reverse)

/-- The broker-list parsing of `initRedpanda`:
`connection.url.split(',').map(b => b.trim())`. -/
def parseBrokerList (url : String) : List String :=
  (jsSplitCommas [] url.data).map jsTrim

/-- `initRedpanda(connection)`: parse the URL form (comma-separated broker
list, trimmed) or take the brokers array, apply the defaults, build the Kafka
client — and then start the warm-up: `kafka.admin().connect()` is invoked
immediately (fire-and-forget), initiating one driver connection attempt.  The
second component counts the driver calls initiated before `initRedpanda`
returns: it is `1` because of that warm-up connect. -/
def initRedpanda (c : RedpandaConfig) : KafkaClient × Nat :=
  match c with
  | .fromUrl u =>
      ({ clientId := u.clientId.getD "redpanda-connector"
         brokers := parseBrokerList u.url
         connectionTimeout := u.connectionTimeout.getD 10000
         requestTimeout := u.requestTimeout.getD 30000 }, 1)
  | .fromBrokers b =>
      ({ clientId := b.clientId.getD "redpanda-connector"
         brokers := b.brokers
         connectionTimeout := b.connectionTimeout.getD 10000
         requestTimeout := b.requestTimeout.getD 30000 }, 1)

/-! ## Redpanda connector (`lib/core/redpanda.connector.ts`)

Fields of the class: the primary `kafka` client, the three sub-resource
handles `adminClient` / `producer` / `consumer` with their memoized creation
attempts `admin_promise` / `producer_promise` / `consumer_promise`, the
`consumer_running` flag and the bound `consumer_group_id`.  Ghost counters
observe the attempts per role and every driver call. -/

structure RedpandaConnector where
  kafka : KafkaClient := {}
  adminClient : Option Nat := none
  admin_promise : Option Nat := none
  producer : Option Nat := none
  producer_promise : Option Nat := none
  consumer : Option Nat := none
  consumer_promise : Option Nat := none
  consumer_running : Bool := false
  consumer_group_id : Option String := none
  admin_attempts : Nat := 0
  producer_attempts : Nat := 0
  consumer_attempts : Nat := 0
  io_count : Nat := 0
  deriving DecidableEq, Repr

/-- The constructor stores the config and calls `initRedpanda(config)`; the
warm-up connection attempt started inside `initRedpanda` is charged to the
new instance's `io_count`. -/
def RedpandaConnector.new (c : RedpandaConfig) : RedpandaConnector :=
  { kafka := (initRedpanda c).1, io_count := (initRedpanda c).2 }

/-- Synchronous body of `getAdmin()`: if no admin attempt is memoized, start
`__connect_admin()` (build `kafka.admin()` and start `admin.connect()`) and
memoize it. -/
def RedpandaConnector.getAdminCall (s : RedpandaConnector) : Nat × RedpandaConnector :=
  match s.admin_promise with
  | some a => (a, s)
  | none =>
      let a := s.admin_attempts + 1
      (a, { s with admin_promise := some a, admin_attempts := a,
                   io_count := s.io_count + 1 })

/-- Settling of a pending `__connect_admin()` attempt: store `adminClient`
on success, clear `admin_promise` on failure. -/
def RedpandaConnector.settleAdmin (s : RedpandaConnector) (ok : Bool) : RedpandaConnector :=
  if ok then { s with adminClient := s.admin_promise }
  else { s with admin_promise := none }

/-- Synchronous body of `getProducer()`: memoize one `__connect_producer()`
attempt. -/
def RedpandaConnector.getProducerCall (s : RedpandaConnector) : Nat × RedpandaConnector :=
  match s.producer_promise with
  | some a => (a, s)
  | none =>
      let a := s.producer_attempts + 1
      (a, { s with producer_promise := some a, producer_attempts := a,
                   io_count := s.io_count + 1 })

/-- Settling of a pending `__connect_producer()` attempt. -/
def RedpandaConnector.settleProducer (s : RedpandaConnector) (ok : Bool) : RedpandaConnector :=
  if ok then { s with producer := s.producer_promise }
  else { s with producer_promise := none }

/-- Synchronous body of `getConsumer(groupId)`: first the conflict guard —
if `consumer_group_id` is set and differs from `groupId`, throw the
"Consumer already exists with groupId ... Call unsubscribe() first" error;
then, if no consumer attempt is memoized, bind `consumer_group_id` and start
`__connect_consumer(groupId)`. -/
def RedpandaConnector.getConsumerCall (s : RedpandaConnector) (groupId : String) :
    Except JSError (Nat × RedpandaConnector) :=
  match s.consumer_group_id with
  | some g =>
      if g ≠ groupId then .error (.consumerGroupConflict g groupId)
      else
        match s.consumer_promise with
        | some a => .ok (a, s)
        | none =>
            let a := s.consumer_attempts + 1
            .ok (a, { s with consumer_group_id := some groupId,
                             consumer_promise := some a,
                             consumer_attempts := a,
                             io_count := s.io_count + 1 })
  | none =>
      match s.consumer_promise with
      | some a => .ok (a, s)
      | none =>
          let a := s.consumer_attempts + 1
          .ok (a, { s with consumer_group_id := some groupId,
                           consumer_promise := some a,
                           consumer_attempts := a,
                           io_count := s.io_count + 1 })

/-- Settling of a pending `__connect_consumer()` attempt: store `consumer`
on success; on failure clear both `consumer_promise` and
`consumer_group_id`. -/
def RedpandaConnector.settleConsumer (s : RedpandaConnector) (ok : Bool) : RedpandaConnector :=
  if ok then { s with consumer := s.consumer_promise }
  else { s with consumer_promise := none, consumer_group_id := none }

/-- Shared body of `connect()` and `ping()`: `await getAdmin()` (settling a
pending admin attempt with outcome `admin_ok` unless the admin client is
already connected), then `await admin.listTopics()` with outcome `probe`.
Thrown errors propagate (`connect()` does not catch). -/
def RedpandaConnector.adminProbe (s : RedpandaConnector) (admin_ok : Bool)
    (probe : Except JSError Nat) : Except JSError Unit × RedpandaConnector :=
  let s1 := (s.getAdminCall).2
  let s2 := if s1.adminClient.isSome then s1 else s1.settleAdmin admin_ok
  match s2.adminClient with
  | none => (.error (.driver 0), s2)
  | some _ =>
      match probe with
      | .ok _ => (.ok (), { s2 with io_count := s2.io_count + 1 })
      | .error e => (.error e, { s2 with io_count := s2.io_count + 1 })

/-- `connect()`: verify connectivity by performing an admin `listTopics`
call; nothing about this call is memoized beyond the admin handle itself. -/
def RedpandaConnector.connect (s : RedpandaConnector) (admin_ok : Bool)
    (probe : Except JSError Nat) : Except JSError Unit × RedpandaConnector :=
  s.adminProbe admin_ok probe

/-- `ping()`: same body as `connect()` wrapped in `try/catch` → result
contract. -/
def RedpandaConnector.ping (s : RedpandaConnector) (admin_ok : Bool)
    (probe : Except JSError Nat) : Res Unit × RedpandaConnector :=
  match s.adminProbe admin_ok probe with
  | (.ok _, s') => (.ok (), s')
  | (.error e, s') => (.err e, s')

/-- `health()` is an alias for `ping()`. -/
def RedpandaConnector.health (s : RedpandaConnector) (admin_ok : Bool)
    (probe : Except JSError Nat) : Res Unit × RedpandaConnector :=
  s.ping admin_ok probe

/-- `publish(message)`: `try { getProducer(); producer.send(...) } catch` →
result contract.  The producer handle is created lazily on first publish
(settling a pending producer attempt with outcome `producer_ok`). -/
def RedpandaConnector.publish (s : RedpandaConnector) (producer_ok : Bool)
    (send : Except JSError Nat) : Res Nat × RedpandaConnector :=
  let s1 := (s.getProducerCall).2
  let s2 := if s1.producer.isSome then s1 else s1.settleProducer producer_ok
  match s2.producer with
  | none => (.err (.driver 0), s2)
  | some _ =>
      match send with
      | .ok d => (.ok d, { s2 with io_count := s2.io_count + 1 })
      | .error e => (.err e, { s2 with io_count := s2.io_count + 1 })

/-- `subscribe(config, handler)`: inside `try` — throw `consumerAlreadyRunning`
if a consume loop is active, `await getConsumer(config.groupId)` (conflict
guard + lazy creation, settling a pending attempt with outcome
`consumer_ok`), then subscribe each of the `numTopics` topics and start the
run loop (`loop` is the combined outcome of those driver calls); on success
set `consumer_running`.  The `catch` turns every thrown error into the
failure variant. -/
def RedpandaConnector.subscribe (s : RedpandaConnector) (groupId : String)
    (numTopics : Nat) (consumer_ok : Bool) (loop : Except JSError Unit) :
    Res Nat × RedpandaConnector :=
  if s.consumer_running then (.err .consumerAlreadyRunning, s)
  else
    match s.getConsumerCall groupId with
    | .error e => (.err e, s)
    | .ok (a, s1) =>
        let s2 := if s1.consumer.isSome then s1 else s1.settleConsumer consumer_ok
        match s2.consumer with
        | none => (.err (.driver 0), s2)
        | some _ =>
            match loop with
            | .ok _ => (.ok a, { s2 with io_count := s2.io_count + numTopics + 1,
                                         consumer_running := true })
            | .error e => (.err e, { s2 with io_count := s2.io_count + 1 })

/-- `unsubscribe()`: no-op when no consumer handle exists; otherwise await
`consumer.disconnect()` (outcome `ok`) and, when it resolves, clear the
consumer handle, its memoized attempt, the running flag and the bound group
id.  A rejected disconnect propagates (there is no catch) and the fields are
then left as they were. -/
def RedpandaConnector.unsubscribe (s : RedpandaConnector) (ok : Bool) :
    Except JSError Unit × RedpandaConnector :=
  match s.consumer with
  | none => (.ok (), s)
  | some _ =>
      if ok then
        (.ok (), { s with consumer := none, consumer_promise := none,
                          consumer_running := false, consumer_group_id := none,
                          io_count := s.io_count + 1 })
      else (.error (.driver 0), { s with io_count := s.io_count + 1 })

/-- `close()`: build one disconnect task per active handle (producer,
consumer, admin) and `await Promise.all(tasks)`.  All tasks are started
before anything is awaited, so every active handle's disconnect is attempted
regardless of the others' outcomes; each task's `.then` clears its own
fields only when its disconnect resolved; `Promise.all` rejects with the
error of a failing task (modelled as the first failing one in field
order). -/
def RedpandaConnector.close (s : RedpandaConnector)
    (producer_ok consumer_ok admin_ok : Bool) :
    Except JSError Unit × RedpandaConnector :=
  let pActive := s.producer.isSome
  let cActive := s.consumer.isSome
  let aActive := s.adminClient.isSome
  let s1 := if pActive then
      (if producer_ok then
        { s with producer := none, producer_promise := none,
                 io_count := s.io_count + 1 }
       else { s with io_count := s.io_count + 1 })
    else s
  let s2 := if cActive then
      (if consumer_ok then
        { s1 with consumer := none, consumer_promise := none,
                  consumer_running := false, consumer_group_id := none,
                  io_count := s1.io_count + 1 }
       else { s1 with io_count := s1.io_count + 1 })
    else s1
  let s3 := if aActive then
      (if admin_ok then
        { s2 with adminClient := none, admin_promise := none,
                  io_count := s2.io_count + 1 }
       else { s2 with io_count := s2.io_count + 1 })
    else s2
  if pActive && !producer_ok then (.error (.driver 10), s3)
  else if cActive && !consumer_ok then (.error (.driver 11), s3)
  else if aActive && !admin_ok then (.error (.driver 12), s3)
  else (.ok (), s3)

/-- `getInstance()` returns the raw `kafka` client. -/
def RedpandaConnector.getInstance (s : RedpandaConnector) : KafkaClient :=
  s.kafka

/-- `getConsumerInstance()` returns the (possibly null) consumer handle. -/
def RedpandaConnector.getConsumerInstance (s : RedpandaConnector) : Option Nat :=
  s.consumer

/-! ## Observation helpers

`connectTrace` replays `k` successive synchronous `connect()` calls (all
arriving before the memoized attempt settles, exactly the "N concurrent
callers" scenario of the single-threaded scheduler) and records the attempt
each caller awaits. -/

def RedisConnector.connectTrace (s : RedisConnector) : Nat → List Nat × RedisConnector
  | 0 => ([], s)
  | k + 1 =>
      let r := s.connectCall
      let t := r.2.connectTrace k
      (r.1 :: t.1, t.2)

/-! ## Helper lemmas -/

theorem redis_connectCall_of_mem {s : RedisConnector} {a : Nat}
    (h : s.init_promise = some a) : s.connectCall = (a, s) := by
  unfold RedisConnector.connectCall
  rw [h]

theorem sql_connectCall_of_mem {s : SQLConnector} {a : Nat}
    (h : s.init_promise = some a) : s.connectCall = (a, s) := by
  unfold SQLConnector.connectCall
  rw [h]

theorem mongo_connectCall_of_mem {s : MongoDBConnector} {a : Nat}
    (h : s.init_promise = some a) : s.connectCall = (a, s) := by
  unfold MongoDBConnector.connectCall
  rw [h]

theorem redis_connectTrace_of_mem {s : RedisConnector} {a : Nat}
    (h : s.init_promise = some a) :
    ∀ k, s.connectTrace k = (List.replicate k a, s) := by
  intro k
  induction k with
  | zero => simp [RedisConnector.connectTrace]
  | succ k ih =>
      simp [RedisConnector.connectTrace, redis_connectCall_of_mem h, ih,
        List.replicate_succ]

theorem redis_connectIter_fixed {s : RedisConnector} {a : Nat}
    (h : s.init_promise = some a) :
    ∀ k, (fun t => (RedisConnector.connectCall t).2)^[k] s = s := by
  intro k
  induction k with
  | zero => rfl
  | succ k ih =>
      rw [Function.iterate_succ_apply, redis_connectCall_of_mem h, ih]

theorem sql_connectIter_fixed {s : SQLConnector} {a : Nat}
    (h : s.init_promise = some a) :
    ∀ k, (fun t => (SQLConnector.connectCall t).2)^[k] s = s := by
  intro k
  induction k with
  | zero => rfl
  | succ k ih =>
      rw [Function.iterate_succ_apply, sql_connectCall_of_mem h, ih]

/-! ## Claim theorems -/

/-- C1: if a consuming handle is already bound to group id `g1` and
`subscribe` is called with `g2 ≠ g1` without an intervening unsubscribe, the
subscribe operation fails with a state-conflict error (the group-conflict
error, or the already-running conflict when the consume loop is active —
both instruct the caller to unsubscribe first) and the connector state is
returned completely unchanged: the bound group id stays `g1`, no second
consumer is created and the existing handle is not rebound. -/
theorem subscribe_conflicting_group_rejected (s : RedpandaConnector)
    (g1 g2 : String) (hbound : s.consumer_group_id = some g1) (hne : g2 ≠ g1)
    (n : Nat) (cok : Bool) (loop : Except JSError Unit) :
    s.subscribe g2 n cok loop =
      (Res.err (if s.consumer_running then JSError.consumerAlreadyRunning
                else JSError.consumerGroupConflict g1 g2), s) := by
  have h12 : g1 ≠ g2 := fun h => hne h.symm
  by_cases hr : s.consumer_running
  · simp [RedpandaConnector.subscribe, hr]
  · simp [RedpandaConnector.subscribe, RedpandaConnector.getConsumerCall, hr,
      hbound, h12]

/-- Witness for C1 at a concrete state bound to group `"G1"`. -/
theorem subscribe_conflicting_group_rejected_witness :
    ({ consumer := some 1, consumer_promise := some 1,
       consumer_group_id := some "G1", consumer_attempts := 1 } :
        RedpandaConnector).subscribe "G2" 1 true (.ok ()) =
      (Res.err (JSError.consumerGroupConflict "G1" "G2"),
       { consumer := some 1, consumer_promise := some 1,
         consumer_group_id := some "G1", consumer_attempts := 1 }) :=
  subscribe_conflicting_group_rejected _ "G1" "G2" rfl (by decide) 1 true (.ok ())

/-- C10: `unsubscribe()` tears down only the consuming handle — the
administrative handle, the publishing handle and the primary `kafka`
connection (and their memoized attempts) are unchanged by it in every state;
when a consuming handle exists and its disconnect resolves, the handle, its
memoized attempt, the running flag and the bound group id are all cleared;
when no consuming handle exists, `unsubscribe()` changes nothing and
resolves. -/
theorem unsubscribe_only_consumer (s : RedpandaConnector) (ok : Bool) :
    ((s.unsubscribe ok).2.adminClient = s.adminClient ∧
     (s.unsubscribe ok).2.admin_promise = s.admin_promise ∧
     (s.unsubscribe ok).2.producer = s.producer ∧
     (s.unsubscribe ok).2.producer_promise = s.producer_promise ∧
     (s.unsubscribe ok).2.kafka = s.kafka) ∧
    (s.consumer = none → s.unsubscribe ok = (.ok (), s)) ∧
    (∀ c, s.consumer = some c → ok = true →
      (s.unsubscribe ok).2.consumer = none ∧
      (s.unsubscribe ok).2.consumer_promise = none ∧
      (s.unsubscribe ok).2.consumer_running = false ∧
      (s.unsubscribe ok).2.consumer_group_id = none) := by
  unfold RedpandaConnector.unsubscribe
  match hc : s.consumer with
  | none => simp
  | some c => cases ok <;> simp

/-- Witness for C10 at a concrete state with all three handles active. -/
theorem unsubscribe_only_consumer_witness :
    (({ adminClient := some 3, admin_promise := some 1, producer := some 4,
        producer_promise := some 1, consumer := some 5, consumer_promise := some 1,
        consumer_running := true, consumer_group_id := some "G1" } :
          RedpandaConnector).unsubscribe true).2.adminClient = some 3 ∧
    (({ consumer := some 5, consumer_promise := some 1, consumer_running := true,
        consumer_group_id := some "G1" } :
          RedpandaConnector).unsubscribe true).2.consumer_group_id = none := by
  refine ⟨(unsubscribe_only_consumer _ true).1.1, ?_⟩
  exact ((unsubscribe_only_consumer _ true).2.2 5 rfl rfl).2.2.2

/-- C4: `close()` on an instance with administrative, publishing and
consuming handles all active attempts all three teardowns (three driver
disconnect calls are issued no matter which of them fail — the tasks are all
started before `Promise.all` is awaited); every role whose disconnect
resolves completes its teardown (its handle and memoized attempt are
cleared), and when at least one teardown fails the partial failure is
surfaced as a rejection of `close()` instead of aborting the teardown of the
other handles. -/
theorem close_best_effort (s : RedpandaConnector) (p c a : Nat)
    (hp : s.producer = some p) (hc : s.consumer = some c)
    (ha : s.adminClient = some a) (okp okc oka : Bool)
    (hfail : (okp && okc && oka) = false) :
    (s.close okp okc oka).2.io_count = s.io_count + 3 ∧
    (okp = true → (s.close okp okc oka).2.producer = none ∧
      (s.close okp okc oka).2.producer_promise = none) ∧
    (okc = true → (s.close okp okc oka).2.consumer = none ∧
      (s.close okp okc oka).2.consumer_promise = none ∧
      (s.close okp okc oka).2.consumer_running = false ∧
      (s.close okp okc oka).2.consumer_group_id = none) ∧
    (oka = true → (s.close okp okc oka).2.adminClient = none ∧
      (s.close okp okc oka).2.admin_promise = none) ∧
    (∃ e, (s.close okp okc oka).1 = .error e) := by
  cases okp <;> cases okc <;> cases oka <;>
    simp_all [RedpandaConnector.close]

/-- A concrete connector state with all three sub-resource handles active,
used by the C4 witness. -/
def allHandlesActive : RedpandaConnector :=
  { adminClient := some 3, admin_promise := some 1, producer := some 4,
    producer_promise := some 1, consumer := some 5, consumer_promise := some 1,
    consumer_running := true, consumer_group_id := some "G1", io_count := 9 }

/-- Witness for C4: all three handles active, the consumer teardown fails,
yet the producer and admin teardowns complete and the failure surfaces. -/
theorem close_best_effort_witness :
    (allHandlesActive.close true false true).2.io_count = 12 ∧
    (allHandlesActive.close true false true).2.producer = none ∧
    ∃ e, (allHandlesActive.close true false true).1 = .error e := by
  refine ⟨?_, ?_, ?_⟩
  · exact (close_best_effort allHandlesActive 4 5 3 rfl rfl rfl true false true rfl).1
  · exact ((close_best_effort allHandlesActive 4 5 3 rfl rfl rfl true false true rfl).2.1 rfl).1
  · exact (close_best_effort allHandlesActive 4 5 3 rfl rfl rfl true false true rfl).2.2.2.2

/-- C7: each sub-resource handle of the messaging connector follows the
"one in-flight attempt, discard on failure" discipline of the primary
connection: while an attempt is memoized, a further request for the role
returns the same attempt and changes nothing; when the creation or
connection of the sub-resource fails, the memoized attempt is discarded (and
for the consuming role the bound group id is cleared too), so the next
domain operation needing that role starts a brand-new creation attempt
instead of reusing the failed handle. -/
theorem subresource_discard_on_failure :
    (∀ (s : RedpandaConnector) (a : Nat), s.admin_promise = some a →
      s.getAdminCall = (a, s) ∧
      (s.settleAdmin false).admin_promise = none ∧
      ((s.settleAdmin false).getAdminCall).2.admin_attempts = s.admin_attempts + 1 ∧
      ((s.settleAdmin false).getAdminCall).1 = s.admin_attempts + 1) ∧
    (∀ (s : RedpandaConnector) (a : Nat), s.producer_promise = some a →
      s.getProducerCall = (a, s) ∧
      (s.settleProducer false).producer_promise = none ∧
      ((s.settleProducer false).getProducerCall).2.producer_attempts
          = s.producer_attempts + 1 ∧
      ((s.settleProducer false).getProducerCall).1 = s.producer_attempts + 1) ∧
    (∀ (s : RedpandaConnector) (a : Nat) (g : String), s.consumer_promise = some a →
      (s.settleConsumer false).consumer_promise = none ∧
      (s.settleConsumer false).consumer_group_id = none ∧
      ∃ s', (s.settleConsumer false).getConsumerCall g
              = .ok (s.consumer_attempts + 1, s') ∧
            s'.consumer_attempts = s.consumer_attempts + 1 ∧
            s'.consumer_promise = some (s.consumer_attempts + 1) ∧
            s'.consumer_group_id = some g) := by
  refine ⟨?_, ?_, ?_⟩
  · intro s a h
    refine ⟨?_, ?_, ?_, ?_⟩ <;>
      simp [RedpandaConnector.getAdminCall, RedpandaConnector.settleAdmin, h]
  · intro s a h
    refine ⟨?_, ?_, ?_, ?_⟩ <;>
      simp [RedpandaConnector.getProducerCall, RedpandaConnector.settleProducer, h]
  · intro s a g h
    refine ⟨?_, ?_, ?_⟩
    · simp [RedpandaConnector.settleConsumer]
    · simp [RedpandaConnector.settleConsumer]
    · refine ⟨{ s with consumer_promise := some (s.consumer_attempts + 1),
                       consumer_group_id := some g,
                       consumer_attempts := s.consumer_attempts + 1,
                       io_count := s.io_count + 1 }, ?_, ?_, ?_, ?_⟩ <;>
        simp [RedpandaConnector.getConsumerCall, RedpandaConnector.settleConsumer, h]

/-- Witness for C7 at concrete states with a memoized attempt per role. -/
theorem subresource_discard_on_failure_witness :
    (({ admin_promise := some 2, admin_attempts := 2 } :
        RedpandaConnector).settleAdmin false).admin_promise = none ∧
    ((({ producer_promise := some 1, producer_attempts := 1 } :
        RedpandaConnector).settleProducer false).getProducerCall).1 = 2 ∧
    (({ consumer_promise := some 1, consumer_attempts := 1,
        consumer_group_id := some "G1" } :
          RedpandaConnector).settleConsumer false).consumer_group_id = none := by
  refine ⟨?_, ?_, ?_⟩
  · exact (subresource_discard_on_failure.1 _ 2 rfl).2.1
  · exact (subresource_discard_on_failure.2.1 _ 1 rfl).2.2.2
  · exact (subresource_discard_on_failure.2.2 _ 1 "G1" rfl).2.1

/-- A freshly constructed messaging connector, used by the C2/C3
counterexamples. -/
def freshRedpanda : RedpandaConnector :=
  RedpandaConnector.new (.fromUrl { url := "localhost:9092" })

/-- Counterexample to C2 as stated ("for every connector ... every further
call to connect() returns that same attempt ... all callers observe the
identical outcome"): the messaging connector's `connect()` is not memoized.
After a first successful `connect()`, a second call issues a fresh
`listTopics` probe (one more driver call — duplicate I/O), and when that
probe fails the second caller observes a failure while the first observed
success; the underlying admin connection attempt count does stay at 1. -/
theorem connect_not_memoized_redpanda_cex :
    (freshRedpanda.connect true (.ok 0)).1 = .ok () ∧
    ((freshRedpanda.connect true (.ok 0)).2.connect true (.ok 0)).2.io_count
      = (freshRedpanda.connect true (.ok 0)).2.io_count + 1 ∧
    ((freshRedpanda.connect true (.ok 0)).2.connect true (.error (.driver 7))).1
      = .error (.driver 7) ∧
    ((freshRedpanda.connect true (.ok 0)).2.connect true
        (.error (.driver 7))).2.admin_attempts = 1 :=
  ⟨rfl, rfl, rfl, rfl⟩

/-- C2 as amended: for the key-value, document and relational connectors,
`connect()` is idempotent and memoized exactly as claimed — while an attempt
is memoized (in-flight or completed), every further call returns that same
attempt and changes nothing (no new driver connection, no I/O), so any
number of calls on one unconnected instance start exactly one underlying
attempt and every caller awaits the same attempt (identical outcome).  The
messaging connector memoizes only the underlying admin connection — repeat
`connect()` calls start no second admin connection attempt — but re-issues
its liveness probe on every call. -/
theorem connect_memoized_amended :
    (∀ (s : RedisConnector) (a : Nat), s.init_promise = some a →
      s.connectCall = (a, s)) ∧
    (∀ (s : SQLConnector) (a : Nat), s.init_promise = some a →
      s.connectCall = (a, s)) ∧
    (∀ (s : MongoDBConnector) (a : Nat), s.init_promise = some a →
      s.connectCall = (a, s)) ∧
    (∀ (k : Nat) (s : RedisConnector), s.init_promise = none →
      (s.connectTrace (k + 1)).1 = List.replicate (k + 1) (s.attempts + 1) ∧
      (s.connectTrace (k + 1)).2.attempts = s.attempts + 1) ∧
    (∀ (s : RedpandaConnector) (c a : Nat) (aok : Bool) (p : Except JSError Nat),
      s.adminClient = some c → s.admin_promise = some a →
      ((s.connect aok p).2).admin_attempts = s.admin_attempts) := by
  refine ⟨?_, ?_, ?_, ?_, ?_⟩
  · intro s a h
    exact redis_connectCall_of_mem h
  · intro s a h
    exact sql_connectCall_of_mem h
  · intro s a h
    exact mongo_connectCall_of_mem h
  · intro k s h
    have hcall : s.connectCall
        = (s.attempts + 1,
           { s with init_promise := some (s.attempts + 1),
                    attempts := s.attempts + 1,
                    io_count := s.io_count + 1 }) := by
      simp [RedisConnector.connectCall, h]
    have htr := @redis_connectTrace_of_mem
      { s with init_promise := some (s.attempts + 1),
               attempts := s.attempts + 1,
               io_count := s.io_count + 1 } (s.attempts + 1) rfl k
    constructor
    · simp [RedisConnector.connectTrace, hcall, htr, List.replicate_succ]
    · simp [RedisConnector.connectTrace, hcall, htr]
  · intro s c a aok p hc hap
    unfold RedpandaConnector.connect RedpandaConnector.adminProbe
    have h1 : (s.getAdminCall).2 = s := by
      simp [RedpandaConnector.getAdminCall, hap]
    rw [h1]
    simp [hc]
    cases p <;> simp

/-- Witness for the amended C2 at concrete states. -/
theorem connect_memoized_amended_witness :
    ({ init_promise := some 5, attempts := 5 } : RedisConnector).connectCall
      = (5, { init_promise := some 5, attempts := 5 }) ∧
    ((RedisConnector.new "redis://h").connectTrace 3).1 = [1, 1, 1] ∧
    (({ adminClient := some 2, admin_promise := some 1, admin_attempts := 1 } :
        RedpandaConnector).connect true (.ok 0)).2.admin_attempts = 1 := by
  refine ⟨?_, ?_, ?_⟩
  · exact connect_memoized_amended.1 _ 5 rfl
  · have h := (connect_memoized_amended.2.2.2.1 2 (RedisConnector.new "redis://h") rfl).1
    simpa using h
  · exact connect_memoized_amended.2.2.2.2 _ 2 1 true (.ok 0) rfl rfl

/-- Counterexample to C3 as stated ("for every connector, after a connect()
attempt fails, the memoized attempt is discarded ... so a subsequent call to
connect() starts a brand-new underlying connection attempt"): when the
messaging connector's `connect()` fails in its `listTopics` probe after the
admin connection succeeded, the memoized admin attempt is NOT discarded
(`admin_promise` still holds attempt 1) and the subsequent `connect()`
starts no brand-new underlying connection attempt (`admin_attempts` stays
1); the retry merely re-probes and can succeed. -/
theorem connect_failure_discard_redpanda_cex :
    (freshRedpanda.connect true (.error (.driver 5))).1 = .error (.driver 5) ∧
    (freshRedpanda.connect true (.error (.driver 5))).2.admin_promise = some 1 ∧
    ((freshRedpanda.connect true (.error (.driver 5))).2.connect true
        (.ok 0)).2.admin_attempts = 1 ∧
    ((freshRedpanda.connect true (.error (.driver 5))).2.connect true (.ok 0)).1
      = .ok () :=
  ⟨rfl, rfl, rfl, rfl⟩

/-- C3 as amended: for the key-value, document and relational connectors the
claim holds as stated — a failed `__connect()` clears the memoized attempt,
so the next `connect()` starts a brand-new underlying attempt — and the
messaging connector applies the same discipline to its underlying admin
connection (a failed admin connection clears `admin_promise` and the next
use starts a fresh admin attempt).  When only the messaging connector's
liveness probe fails after a successful admin connection, the successfully
memoized admin handle is kept and the subsequent `connect()` re-probes over
it; in every case a connect failure is never permanently cached and a
retry can succeed. -/
theorem connect_retry_after_failure_amended :
    (∀ (s : RedisConnector) (a : Nat), s.init_promise = some a →
      (s.settleConnect false).init_promise = none ∧
      ((s.settleConnect false).connectCall).2.attempts = s.attempts + 1 ∧
      ((s.settleConnect false).connectCall).1 = s.attempts + 1) ∧
    (∀ (s : SQLConnector) (a : Nat), s.init_promise = some a →
      (s.settleConnect false).init_promise = none ∧
      ((s.settleConnect false).connectCall).2.attempts = s.attempts + 1 ∧
      ((s.settleConnect false).connectCall).1 = s.attempts + 1) ∧
    (∀ (s : MongoDBConnector) (a : Nat), s.init_promise = some a →
      (s.settleConnect false).init_promise = none ∧
      ((s.settleConnect false).connectCall).2.attempts = s.attempts + 1 ∧
      ((s.settleConnect false).connectCall).1 = s.attempts + 1) ∧
    (∀ (s : RedpandaConnector) (a : Nat), s.admin_promise = some a →
      (s.settleAdmin false).admin_promise = none ∧
      ((s.settleAdmin false).getAdminCall).2.admin_attempts
        = s.admin_attempts + 1) ∧
    (∀ (s : RedpandaConnector) (c a : Nat) (e : JSError),
      s.adminClient = some c → s.admin_promise = some a →
      (s.connect true (.error e)).1 = .error e ∧
      (s.connect true (.error e)).2.admin_promise = some a ∧
      ((s.connect true (.error e)).2.connect true (.ok 0)).1 = .ok ()) := by
  refine ⟨?_, ?_, ?_, ?_, ?_⟩
  · intro s a h
    refine ⟨?_, ?_, ?_⟩ <;>
      simp [RedisConnector.settleConnect, RedisConnector.connectCall]
  · intro s a h
    refine ⟨?_, ?_, ?_⟩ <;>
      simp [SQLConnector.settleConnect, SQLConnector.connectCall]
  · intro s a h
    refine ⟨?_, ?_, ?_⟩ <;>
      simp [MongoDBConnector.settleConnect, MongoDBConnector.connectCall]
  · intro s a h
    constructor
    · simp [RedpandaConnector.settleAdmin]
    · simp [RedpandaConnector.settleAdmin, RedpandaConnector.getAdminCall]
  · intro s c a e hc hap
    have h1 : (s.getAdminCall).2 = s := by
      simp [RedpandaConnector.getAdminCall, hap]
    have hfirst : s.connect true (.error e)
        = (.error e, { s with io_count := s.io_count + 1 }) := by
      unfold RedpandaConnector.connect RedpandaConnector.adminProbe
      rw [h1]
      simp [hc]
    refine ⟨by rw [hfirst], by rw [hfirst]; exact hap, ?_⟩
    rw [hfirst]
    unfold RedpandaConnector.connect RedpandaConnector.adminProbe
    have h2 : (({ s with io_count := s.io_count + 1 } :
        RedpandaConnector).getAdminCall).2
        = { s with io_count := s.io_count + 1 } := by
      simp [RedpandaConnector.getAdminCall, hap]
    rw [h2]
    simp [hc]

/-- Witness for the amended C3 at concrete states. -/
theorem connect_retry_after_failure_amended_witness :
    (({ init_promise := some 1, attempts := 1, io_count := 1 } :
        RedisConnector).settleConnect false).init_promise = none ∧
    ((({ init_promise := some 1, attempts := 1, io_count := 1 } :
        MongoDBConnector).settleConnect false).connectCall).2.attempts = 2 ∧
    (({ adminClient := some 2, admin_promise := some 1, admin_attempts := 1 } :
        RedpandaConnector).connect true (.error (.driver 3))).2.admin_promise
      = some 1 := by
  refine ⟨?_, ?_, ?_⟩
  · exact (connect_retry_after_failure_amended.1 _ 1 rfl).1
  · exact (connect_retry_after_failure_amended.2.2.1 _ 1 rfl).2.1
  · exact (connect_retry_after_failure_amended.2.2.2.2 _ 2 1 (.driver 3)
      rfl rfl).2.1

/-- Counterexample to C5 as stated ("for every connector, calling any domain
operation before connect() has resolved always fails fast with the
unrecoverable not-connected signal (distinct from the Result Contract) and
never performs I/O"): on a freshly constructed document connector,
`findOne` does not raise the signal — the guard's throw is caught by the
operation's own `catch` and surfaced through the Result Contract as
`{ok:false, error}` — and on a freshly constructed messaging connector
`publish` does not fail at all: it lazily creates and connects the producer
and sends, performing two driver calls before `connect()` was ever
invoked. -/
theorem ops_before_connect_cex :
    ((MongoDBConnector.new "mongodb://h").findOne (.ok 42)).1
      = Res.err (.notConnected "MongoDB") ∧
    ((MongoDBConnector.new "mongodb://h").findOne (.ok 42)).2
      = MongoDBConnector.new "mongodb://h" ∧
    (freshRedpanda.publish true (.ok 7)).1 = Res.ok 7 ∧
    (freshRedpanda.publish true (.ok 7)).2.io_count
      = freshRedpanda.io_count + 2 :=
  ⟨rfl, rfl, rfl, rfl⟩

/-- C5 as amended: for the key-value, relational and document connectors,
every domain operation issued before `connect()` has resolved fails without
performing any driver I/O (the state, `io_count` included, is unchanged),
carrying the "not connected" error — thrown as the unrecoverable signal by
the raw-handle accessors (`getInstance`), but surfaced as the Result
Contract's failure variant by the Result-returning operations (`ping`,
`findOne`), whose `catch` absorbs the guard's throw.  The messaging
connector's domain operations are exempt: they lazily create the needed
sub-resource, starting driver I/O even before `connect()` (here: `publish`
starts a fresh producer connection attempt). -/
theorem ops_before_connect_amended :
    (∀ (s : RedisConnector) (d : Except JSError Nat), s.client = none →
      s.ping d = (.err (.notConnected "Redis"), s) ∧
      s.getInstance = .error (.notConnected "Redis")) ∧
    (∀ (s : SQLConnector) (d : Except JSError Nat), s.client = none →
      s.ping d = (.err (.notConnected "SQL"), s) ∧
      s.getInstance = .error (.notConnected "SQL")) ∧
    (∀ (s : MongoDBConnector) (d : Except JSError Nat), s.db = none →
      s.findOne d = (.err (.notConnected "MongoDB"), s) ∧
      s.ping d = (.err (.notConnected "MongoDB"), s) ∧
      s.getInstance = .error (.notConnected "MongoDB")) ∧
    (∀ (s : RedpandaConnector) (d : Except JSError Nat),
      s.producer = none → s.producer_promise = none →
      (s.publish true d).2.producer_attempts = s.producer_attempts + 1) := by
  refine ⟨?_, ?_, ?_, ?_⟩
  · intro s d h
    constructor <;>
      simp [RedisConnector.ping, RedisConnector.getInstance,
        RedisConnector.require_client, h]
  · intro s d h
    constructor <;>
      simp [SQLConnector.ping, SQLConnector.getInstance,
        SQLConnector.require_client, h]
  · intro s d h
    refine ⟨?_, ?_, ?_⟩ <;>
      simp [MongoDBConnector.findOne, MongoDBConnector.ping,
        MongoDBConnector.getInstance, MongoDBConnector.require_db, h]
  · intro s d hp hpp
    have h1 : (s.getProducerCall).2
        = { s with producer_promise := some (s.producer_attempts + 1),
                   producer_attempts := s.producer_attempts + 1,
                   io_count := s.io_count + 1 } := by
      simp [RedpandaConnector.getProducerCall, hpp]
    unfold RedpandaConnector.publish
    rw [h1]
    simp [hp, RedpandaConnector.settleProducer]
    cases d <;> simp

/-- Witness for the amended C5 at freshly constructed instances. -/
theorem ops_before_connect_amended_witness :
    (RedisConnector.new "redis://h").ping (.ok 0)
      = (.err (.notConnected "Redis"), RedisConnector.new "redis://h") ∧
    (SQLConnector.new "postgres://h").getInstance
      = .error (.notConnected "SQL") ∧
    ((MongoDBConnector.new "mongodb://h").findOne (.ok 0)).2
      = MongoDBConnector.new "mongodb://h" := by
  refine ⟨?_, ?_, ?_⟩
  · exact (ops_before_connect_amended.1 _ (.ok 0) rfl).1
  · exact (ops_before_connect_amended.2.1 _ (.ok 0) rfl).2
  · rw [(ops_before_connect_amended.2.2.1 _ (.ok 0) rfl).1]

/-- C6: for every connector, `health()` (the alias of `ping()`) never raises
— its body is wrapped in `try/catch`, so for every driver outcome it returns
a value of the result contract: on a reachable backend (driver probe
succeeds) it returns the success variant, and on an unreachable backend
(driver probe or admin connection fails) it returns the failure variant
carrying the causing error.  For the key-value, relational and document
connectors this is shown on a connected instance; the messaging connector
probes through its lazily created admin handle, so it is shown both on an
instance with a connected admin handle and on a fresh one whose admin
connection fails. -/
theorem health_never_raises :
    (∀ (s : RedisConnector) (c d : Nat), s.client = some c →
      (s.health (.ok d)).1 = .ok d ∧
      ∀ e, (s.health (.error e)).1 = .err e) ∧
    (∀ (s : SQLConnector) (c d : Nat), s.client = some c →
      (s.health (.ok d)).1 = .ok () ∧
      ∀ e, (s.health (.error e)).1 = .err e) ∧
    (∀ (s : MongoDBConnector) (c d : Nat), s.db = some c →
      (s.health (.ok d)).1 = .ok d ∧
      ∀ e, (s.health (.error e)).1 = .err e) ∧
    (∀ (s : RedpandaConnector) (c a d : Nat),
      s.adminClient = some c → s.admin_promise = some a →
      (s.health true (.ok d)).1 = .ok () ∧
      ∀ e, (s.health true (.error e)).1 = .err e) ∧
    (∀ (s : RedpandaConnector) (d : Except JSError Nat),
      s.admin_promise = none → s.adminClient = none →
      (s.health false d).1 = .err (.driver 0)) := by
  refine ⟨?_, ?_, ?_, ?_, ?_⟩
  · intro s c d h
    constructor <;>
      simp [RedisConnector.health, RedisConnector.ping,
        RedisConnector.require_client, h]
  · intro s c d h
    constructor <;>
      simp [SQLConnector.health, SQLConnector.ping,
        SQLConnector.require_client, h]
  · intro s c d h
    constructor <;>
      simp [MongoDBConnector.health, MongoDBConnector.ping,
        MongoDBConnector.require_db, h]
  · intro s c a d hc hap
    have h1 : (s.getAdminCall).2 = s := by
      simp [RedpandaConnector.getAdminCall, hap]
    constructor
    · unfold RedpandaConnector.health RedpandaConnector.ping
        RedpandaConnector.adminProbe
      rw [h1]
      simp [hc]
    · intro e
      unfold RedpandaConnector.health RedpandaConnector.ping
        RedpandaConnector.adminProbe
      rw [h1]
      simp [hc]
  · intro s d hap hc
    have h1 : (s.getAdminCall).2
        = { s with admin_promise := some (s.admin_attempts + 1),
                   admin_attempts := s.admin_attempts + 1,
                   io_count := s.io_count + 1 } := by
      simp [RedpandaConnector.getAdminCall, hap]
    unfold RedpandaConnector.health RedpandaConnector.ping
      RedpandaConnector.adminProbe
    rw [h1]
    simp [hc, RedpandaConnector.settleAdmin]

/-- Witness for C6 at concrete connected and unreachable states. -/
theorem health_never_raises_witness :
    (({ client := some 1, init_promise := some 1, attempts := 1, io_count := 1 } :
        RedisConnector).health (.error (.driver 9))).1 = .err (.driver 9) ∧
    (({ db := some 1, client := some 1, init_promise := some 1 } :
        MongoDBConnector).health (.ok 5)).1 = .ok 5 ∧
    (({ adminClient := some 2, admin_promise := some 1 } :
        RedpandaConnector).health true (.ok 0)).1 = .ok () ∧
    (freshRedpanda.health false (.ok 0)).1 = .err (.driver 0) := by
  refine ⟨?_, ?_, ?_, ?_⟩
  · exact (health_never_raises.1 _ 1 0 rfl).2 (.driver 9)
  · exact (health_never_raises.2.2.1 _ 1 5 rfl).1
  · exact (health_never_raises.2.2.2.1 _ 2 1 0 rfl rfl).1
  · exact health_never_raises.2.2.2.2 freshRedpanda (.ok 0) rfl rfl

/-- C8 failing input: constructing a messaging connector performs I/O.  The
constructor calls `initRedpanda(config)`, which — after parsing the broker
list — immediately invokes `kafka.admin().connect()` as a fire-and-forget
warm-up, initiating one driver connection attempt before the constructor
returns (`io_count = 1`).  The other three connectors' constructors only
store the configuration (`io_count = 0`), as the claim and the repository's
own lifecycle documentation ("Construct (no I/O)") state for all four. -/
theorem constructor_warmup_io :
    (RedpandaConnector.new (.fromUrl { url := "b1:9092, b2:9092" })).io_count = 1 ∧
    (RedpandaConnector.new (.fromUrl { url := "b1:9092, b2:9092" })).kafka.brokers
      = ["b1:9092", "b2:9092"] ∧
    (RedpandaConnector.new (.fromUrl { url := "b1:9092" })).kafka.clientId
      = "redpanda-connector" ∧
    (RedisConnector.new "redis://h").io_count = 0 ∧
    (SQLConnector.new "postgres://h").io_count = 0 ∧
    (MongoDBConnector.new "mongodb://h").io_count = 0 :=
  ⟨rfl, by decide, rfl, rfl, rfl, rfl⟩

/-- C9: for the key-value and relational connectors, `close()` after a
successful `connect()` nulls the client but leaves the memoized (settled)
connect attempt in place, so the instance can never become connected again:
every later `connect()` returns that settled attempt immediately — the state
(in particular `io_count` and `attempts`) is unchanged, so no driver I/O and
no fresh underlying attempt happen, and iterating `connect()` any number of
times leaves the state fixed — while `client` stays null, so `ping` and
`getInstance` keep failing with the "not connected" error forever.  The
document connector differs: its `close()` also resets `init_promise`, so a
later `connect()` starts a brand-new underlying attempt. -/
theorem close_then_connect_dead :
    (∀ (s : RedisConnector), s.init_promise = none → s.client = none →
      ((s.connectCall.2.settleConnect true).close).client = none ∧
      ((s.connectCall.2.settleConnect true).close).init_promise
        = some (s.attempts + 1) ∧
      ((s.connectCall.2.settleConnect true).close).connectCall
        = (s.attempts + 1, (s.connectCall.2.settleConnect true).close) ∧
      (∀ k, (fun t => (RedisConnector.connectCall t).2)^[k]
          ((s.connectCall.2.settleConnect true).close)
        = (s.connectCall.2.settleConnect true).close) ∧
      (∀ d, ((s.connectCall.2.settleConnect true).close).ping d
        = (.err (.notConnected "Redis"), (s.connectCall.2.settleConnect true).close)) ∧
      ((s.connectCall.2.settleConnect true).close).getInstance
        = .error (.notConnected "Redis")) ∧
    (∀ (s : SQLConnector), s.init_promise = none → s.client = none →
      ((s.connectCall.2.settleConnect true).close).client = none ∧
      ((s.connectCall.2.settleConnect true).close).init_promise
        = some (s.attempts + 1) ∧
      ((s.connectCall.2.settleConnect true).close).connectCall
        = (s.attempts + 1, (s.connectCall.2.settleConnect true).close) ∧
      (∀ k, (fun t => (SQLConnector.connectCall t).2)^[k]
          ((s.connectCall.2.settleConnect true).close)
        = (s.connectCall.2.settleConnect true).close) ∧
      (∀ d, ((s.connectCall.2.settleConnect true).close).ping d
        = (.err (.notConnected "SQL"), (s.connectCall.2.settleConnect true).close)) ∧
      ((s.connectCall.2.settleConnect true).close).getInstance
        = .error (.notConnected "SQL")) ∧
    (∀ (s : MongoDBConnector), s.init_promise = none → s.client = none →
      ((s.connectCall.2.settleConnect true).close).init_promise = none ∧
      (((s.connectCall.2.settleConnect true).close).connectCall).1
        = s.attempts + 2 ∧
      (((s.connectCall.2.settleConnect true).close).connectCall).2.attempts
        = s.attempts + 2) := by
  refine ⟨?_, ?_, ?_⟩
  · intro s h hc
    have hs3 : (s.connectCall.2.settleConnect true).close
        = { s with client := none, init_promise := some (s.attempts + 1),
                   attempts := s.attempts + 1, io_count := s.io_count + 2 } := by
      simp [RedisConnector.connectCall, RedisConnector.settleConnect,
        RedisConnector.close, h]
    rw [hs3]
    refine ⟨rfl, rfl, ?_, ?_, ?_, rfl⟩
    · exact redis_connectCall_of_mem rfl
    · exact fun k => redis_connectIter_fixed rfl k
    · intro d
      rfl
  · intro s h hc
    have hs3 : (s.connectCall.2.settleConnect true).close
        = { s with client := none, init_promise := some (s.attempts + 1),
                   attempts := s.attempts + 1, io_count := s.io_count + 2 } := by
      simp [SQLConnector.connectCall, SQLConnector.settleConnect,
        SQLConnector.close, h]
    rw [hs3]
    refine ⟨rfl, rfl, ?_, ?_, ?_, rfl⟩
    · exact sql_connectCall_of_mem rfl
    · exact fun k => sql_connectIter_fixed rfl k
    · intro d
      rfl
  · intro s h hc
    have ht3 : (s.connectCall.2.settleConnect true).close
        = { s with client := none, db := none, init_promise := none,
                   attempts := s.attempts + 1, io_count := s.io_count + 2 } := by
      simp [MongoDBConnector.connectCall, MongoDBConnector.settleConnect,
        MongoDBConnector.close, h]
    rw [ht3]
    refine ⟨rfl, ?_, ?_⟩ <;> simp [MongoDBConnector.connectCall]

/-- Witness for C9 on freshly constructed instances driven through
connect-success-close. -/
theorem close_then_connect_dead_witness :
    (((RedisConnector.new "redis://h").connectCall.2.settleConnect
        true).close).connectCall.2.client = none ∧
    (((SQLConnector.new "pg://h").connectCall.2.settleConnect
        true).close).init_promise = some 1 ∧
    ((((MongoDBConnector.new "mongo://h").connectCall.2.settleConnect
        true).close).connectCall).2.attempts = 2 := by
  refine ⟨?_, ?_, ?_⟩
  · have h := (close_then_connect_dead.1 (RedisConnector.new "redis://h") rfl rfl).2.2.1
    rw [h]
    exact (close_then_connect_dead.1 (RedisConnector.new "redis://h") rfl rfl).1
  · exact (close_then_connect_dead.2.1 (SQLConnector.new "pg://h") rfl rfl).2.1
  · exact (close_then_connect_dead.2.2 (MongoDBConnector.new "mongo://h") rfl rfl).2.2
